import Mathlib

/-!
Verification of the brick-breaker simulation core in
`src/components/BrickBreakerGame.tsx`.

The game state, the collision primitive `checkCollision`, and the per-frame
update performed inside `gameLoop`'s `setGameState` callback are embedded as
Lean definitions over the real numbers (JS numbers carry only small integral
and half-integral values here; the trigonometric paddle bounce needs `Real.sin`
and `Real.cos`, so the whole model lives in `ℝ`).  Integer-valued fields
(score, lives, level, brick points) are modelled as `ℤ`.

The update is written as a composition of stages, one per contiguous block of
the source function, applied in source order:
ball integration, wall bounce (x then y), paddle bounce, brick collision scan,
win check, loss/life check — all guarded by the initial early-return test.
-/

noncomputable section

/-- Game constants from the top of the source file. -/
def GAME_WIDTH : ℝ := 320

def GAME_HEIGHT : ℝ := 480

def PADDLE_WIDTH : ℝ := 70

def PADDLE_HEIGHT : ℝ := 10

def BALL_SIZE : ℝ := 12

def BRICK_WIDTH : ℝ := 28

def BRICK_HEIGHT : ℝ := 18

/-- Brick grid row count (loop bound, hence a natural number). -/
def BRICK_ROWS : ℕ := 7

/-- Brick grid column count (loop bound, hence a natural number). -/
def BRICK_COLS : ℕ := 10

def BRICK_PADDING : ℝ := 2

/-- A 2-d vector, used for positions and velocities (`Position`/`Velocity`). -/
structure Vec2 where
  x : ℝ
  y : ℝ

/-- An axis-aligned rectangle, the argument shape of `checkCollision`. -/
structure Rect where
  x : ℝ
  y : ℝ
  width : ℝ
  height : ℝ

/-- A brick: identity string `"row-col"`, top-left corner, destroyed flag,
color class and point value. -/
structure Brick where
  id : String
  x : ℝ
  y : ℝ
  destroyed : Bool
  color : String
  points : ℤ

/-- The aggregate `GameState` of the source. -/
structure GameState where
  paddle : Vec2
  ball : Vec2
  ballVelocity : Vec2
  bricks : List Brick
  score : ℤ
  lives : ℤ
  gameOver : Bool
  gameWon : Bool
  level : ℤ
  paused : Bool
  gameStarted : Bool

/-- One entry of `BRICK_CONFIGS`: a color class and a point value. -/
structure BrickConfig where
  color : String
  points : ℤ

/-- The row-indexed brick configuration table `BRICK_CONFIGS`. -/
def BRICK_CONFIGS : List BrickConfig :=
  [⟨"bg-gradient-to-r from-rose-300 to-rose-400", 50⟩,
   ⟨"bg-gradient-to-r from-amber-300 to-amber-400", 40⟩,
   ⟨"bg-gradient-to-r from-emerald-300 to-emerald-400", 30⟩,
   ⟨"bg-gradient-to-r from-sky-300 to-sky-400", 25⟩,
   ⟨"bg-gradient-to-r from-violet-300 to-violet-400", 20⟩,
   ⟨"bg-gradient-to-r from-pink-300 to-pink-400", 15⟩,
   ⟨"bg-gradient-to-r from-teal-300 to-teal-400", 10⟩]

/-- The `startX` offset computed at the top of the brick initializer. -/
def startX : ℝ :=
  (GAME_WIDTH - ((BRICK_COLS : ℝ) * (BRICK_WIDTH + BRICK_PADDING) - BRICK_PADDING)) / 2

/-- The brick built for grid cell `(row, col)` by the brick initializer. -/
def mkBrick (row col : ℕ) : Brick :=
  let config := BRICK_CONFIGS.getD (row % BRICK_CONFIGS.length) ⟨"", 0⟩
  { id := toString row ++ "-" ++ toString col,
    x := startX + (col : ℝ) * (BRICK_WIDTH + BRICK_PADDING),
    y := 50 + (row : ℝ) * (BRICK_HEIGHT + BRICK_PADDING),
    destroyed := false,
    color := config.color,
    points := config.points }

/-- The source's `initializeBricks`: the row-major 7×10 brick list. -/
def initialBricks : List Brick :=
  (List.range BRICK_ROWS).flatMap (fun row =>
    (List.range BRICK_COLS).map (fun col => mkBrick row col))

/-- The source's `createInitialState`. -/
def createInitialState (level : ℤ) : GameState :=
  { paddle := ⟨GAME_WIDTH / 2 - PADDLE_WIDTH / 2, GAME_HEIGHT - 40⟩,
    ball := ⟨GAME_WIDTH / 2, GAME_HEIGHT - 60⟩,
    ballVelocity := ⟨0, 0⟩,
    bricks := initialBricks,
    score := 0,
    lives := 3,
    gameOver := false,
    gameWon := false,
    level := level,
    paused := false,
    gameStarted := false }

/-- The source's `checkCollision`: strict axis-aligned rectangle overlap. -/
def checkCollision (obj1 obj2 : Rect) : Prop :=
  obj1.x < obj2.x + obj2.width ∧
  obj1.x + obj1.width > obj2.x ∧
  obj1.y < obj2.y + obj2.height ∧
  obj1.y + obj1.height > obj2.y

instance (obj1 obj2 : Rect) : Decidable (checkCollision obj1 obj2) := by
  unfold checkCollision; infer_instance

/-- The ball's bounding rectangle, as constructed at both collision call
sites: top-left corner at `ball - BALL_SIZE/2`, extent `BALL_SIZE`. -/
def ballRect (ball : Vec2) : Rect :=
  ⟨ball.x - BALL_SIZE / 2, ball.y - BALL_SIZE / 2, BALL_SIZE, BALL_SIZE⟩

/-- The paddle's rectangle as used in the paddle-collision test. -/
def paddleRect (paddle : Vec2) : Rect :=
  ⟨paddle.x, paddle.y, PADDLE_WIDTH, PADDLE_HEIGHT⟩

/-- A brick's rectangle as used in the brick-collision test. -/
def brickRect (b : Brick) : Rect :=
  ⟨b.x, b.y, BRICK_WIDTH, BRICK_HEIGHT⟩

/-- Stage 1 of the update: `ball += ballVelocity` (Euler integration). -/
def moveBall (s : GameState) : GameState :=
  { s with ball := ⟨s.ball.x + s.ballVelocity.x, s.ball.y + s.ballVelocity.y⟩ }

/-- Stage 2a: bounce off the vertical walls, negating `ballVelocity.x` and
clamping `ball.x` back inside the field. -/
def wallBounceX (s : GameState) : GameState :=
  if s.ball.x ≤ BALL_SIZE / 2 ∨ s.ball.x ≥ GAME_WIDTH - BALL_SIZE / 2 then
    { s with ballVelocity := ⟨-s.ballVelocity.x, s.ballVelocity.y⟩,
             ball := ⟨max (BALL_SIZE / 2) (min (GAME_WIDTH - BALL_SIZE / 2) s.ball.x),
                      s.ball.y⟩ }
  else s

/-- Stage 2b: bounce off the top wall, negating `ballVelocity.y` and pinning
`ball.y` to `BALL_SIZE / 2`. -/
def wallBounceY (s : GameState) : GameState :=
  if s.ball.y ≤ BALL_SIZE / 2 then
    { s with ballVelocity := ⟨s.ballVelocity.x, -s.ballVelocity.y⟩,
             ball := ⟨s.ball.x, BALL_SIZE / 2⟩ }
  else s

/-- Stage 2: both wall bounces, in source order (x test, then y test). -/
def wallBounce (s : GameState) : GameState :=
  wallBounceY (wallBounceX s)

/-- The paddle-collision branch condition: ball rectangle overlaps the paddle
rectangle and the ball is moving downward. -/
def paddleHit (s : GameState) : Prop :=
  checkCollision (ballRect s.ball) (paddleRect s.paddle) ∧ s.ballVelocity.y > 0

instance (s : GameState) : Decidable (paddleHit s) := by
  unfold paddleHit; infer_instance

/-- The paddle-relative hit position `hitPos` computed inside the paddle
branch. -/
def hitPos (s : GameState) : ℝ :=
  (s.ball.x - (s.paddle.x + PADDLE_WIDTH / 2)) / (PADDLE_WIDTH / 2)

/-- The tuning constant `maxAngle` (60 degrees). -/
def maxAngle : ℝ := Real.pi / 3

/-- The level-scaled `baseSpeed` used by the paddle bounce. -/
def baseSpeed (level : ℤ) : ℝ := 3 + (level : ℝ) * 0.5

/-- Stage 3: the paddle bounce.  The source first forces
`ballVelocity.y = -abs(ballVelocity.y)` and then overwrites both velocity
components with the angle-based values, so only the final assignment is
observable. -/
def paddleBounce (s : GameState) : GameState :=
  if paddleHit s then
    let angle := hitPos s * maxAngle
    { s with ballVelocity := ⟨Real.sin angle * baseSpeed s.level,
                              -(Real.cos angle) * baseSpeed s.level⟩ }
  else s

/-- The velocity reflection applied for one colliding brick: flip the axis
with the larger centroid-to-centroid displacement. -/
def brickBounceVel (ball : Vec2) (b : Brick) (v : Vec2) : Vec2 :=
  let dx := ball.x - (b.x + BRICK_WIDTH / 2)
  let dy := ball.y - (b.y + BRICK_HEIGHT / 2)
  if |dx| > |dy| then ⟨-v.x, v.y⟩ else ⟨v.x, -v.y⟩

/-- The `forEach` over the brick list: returns the updated brick list, the
updated score, and the updated ball velocity.  Each non-destroyed brick whose
rectangle overlaps the ball rectangle is marked destroyed, contributes its
points, and flips one velocity axis; the scan never exits early. -/
def brickPass (ball : Vec2) : List Brick → ℤ → Vec2 → List Brick × ℤ × Vec2
  | [], score, v => ([], score, v)
  | b :: rest, score, v =>
    if b.destroyed = false ∧ checkCollision (ballRect ball) (brickRect b) then
      let out := brickPass ball rest (score + b.points) (brickBounceVel ball b v)
      ({ b with destroyed := true } :: out.1, out.2)
    else
      let out := brickPass ball rest score v
      (b :: out.1, out.2)

/-- Stage 4: the brick-collision scan folded back into the state. -/
def brickCollisions (s : GameState) : GameState :=
  let out := brickPass s.ball s.bricks s.score s.ballVelocity
  { s with bricks := out.1, score := out.2.1, ballVelocity := out.2.2 }

/-- Stage 5: the win check — set `gameWon` when no non-destroyed brick
remains. -/
def winCheck (s : GameState) : GameState :=
  if (s.bricks.filter (fun brick => !brick.destroyed)).length = 0 then
    { s with gameWon := true }
  else s

/-- Stage 6: the loss/life check — if the ball fell below the field,
decrement `lives`; at `lives ≤ 0` set `gameOver`, otherwise reset the ball to
its serve position, zero its velocity, and clear `gameStarted`. -/
def lossCheck (s : GameState) : GameState :=
  if s.ball.y > GAME_HEIGHT then
    if s.lives - 1 ≤ 0 then
      { s with lives := s.lives - 1, gameOver := true }
    else
      { s with lives := s.lives - 1,
               ball := ⟨GAME_WIDTH / 2, GAME_HEIGHT - 60⟩,
               ballVelocity := ⟨0, 0⟩,
               gameStarted := false }
  else s

/-- One simulation-step tick: the state update performed by `gameLoop`'s
`setGameState` callback, including the early-return guard. -/
def gameLoopStep (s : GameState) : GameState :=
  if s.gameOver || s.gameWon || s.paused || !s.gameStarted then s
  else lossCheck (winCheck (brickCollisions (paddleBounce (wallBounce (moveBall s)))))

/-- The `startGame` handler.  `vx` stands for the random horizontal serve
component `(Math.random() - 0.5) * 2`; it is left arbitrary here. -/
def startGame (vx : ℝ) (s : GameState) : GameState :=
  { s with gameStarted := true,
           ballVelocity := ⟨vx, -(3 + (s.level : ℝ) * 0.5)⟩ }

/-- The `togglePause` handler. -/
def togglePause (s : GameState) : GameState :=
  { s with paused := !s.paused }

/-- The pointer/touch paddle drag: set the paddle x from a field-space pointer
coordinate `gx`, clamped to the field. -/
def movePaddle (gx : ℝ) (s : GameState) : GameState :=
  { s with paddle := ⟨max 0 (min (GAME_WIDTH - PADDLE_WIDTH) (gx - PADDLE_WIDTH / 2)),
                      s.paddle.y⟩ }

/-- States reachable from a fresh episode state through the operations the
component can perform between restarts: simulation ticks, the guarded serve,
pause toggling, and paddle drags. -/
inductive Reachable : GameState → Prop
  | init (lvl : ℤ) : Reachable (createInitialState lvl)
  | tick {s : GameState} : Reachable s → Reachable (gameLoopStep s)
  | start {s : GameState} (vx : ℝ) : Reachable s → s.gameStarted = false →
      s.gameOver = false → s.gameWon = false → Reachable (startGame vx s)
  | pause {s : GameState} : Reachable s → Reachable (togglePause s)
  | drag {s : GameState} (gx : ℝ) : Reachable s → Reachable (movePaddle gx s)

/-- An active tick: the early-return guard does not fire. -/
def Active (s : GameState) : Prop :=
  s.gameStarted = true ∧ s.paused = false ∧ s.gameOver = false ∧ s.gameWon = false

/-- The per-brick effect of one tick's brick scan, as a function of the ball
position used by the scan: a non-destroyed overlapping brick is marked
destroyed, any other brick is untouched. -/
def markBrick (ball : Vec2) (b : Brick) : Brick :=
  if b.destroyed = false ∧ checkCollision (ballRect ball) (brickRect b) then
    { b with destroyed := true }
  else b

/-- The total point value the brick scan adds to the score: the sum of the
points of the non-destroyed bricks overlapping the ball rectangle. -/
def newlyDestroyedPoints (ball : Vec2) : List Brick → ℤ
  | [] => 0
  | b :: rest =>
    (if b.destroyed = false ∧ checkCollision (ballRect ball) (brickRect b) then b.points
     else 0) + newlyDestroyedPoints ball rest

/-- The total point value of the bricks whose destroyed flag flips from
`false` to `true` between two parallel brick lists. -/
def flippedPointsAux : List Brick → List Brick → ℤ
  | b :: bs, c :: cs =>
    (if b.destroyed = false ∧ c.destroyed = true then c.points else 0) +
      flippedPointsAux bs cs
  | _, _ => 0

/-- The state after `n` ticks from the fresh level-`lvl` state. -/
def tickSeq (lvl : ℤ) (n : ℕ) : GameState :=
  gameLoopStep^[n] (createInitialState lvl)

/-- Concrete active state whose ball leaves the bottom edge this tick
(post-integration y is 489 with three lives left). -/
def sLossDemo : GameState :=
  { paddle := ⟨125, 440⟩, ball := ⟨160, 479⟩, ballVelocity := ⟨0, 10⟩,
    bricks := [], score := 0, lives := 3, gameOver := false, gameWon := false,
    level := 1, paused := false, gameStarted := true }

/-- Concrete active state with a single brick in the path of the ball. -/
def sWinDemo : GameState :=
  { paddle := ⟨125, 440⟩, ball := ⟨25, 58⟩, ballVelocity := ⟨0, 1⟩,
    bricks := [⟨"0-0", 11, 50, false, "c", 50⟩],
    score := 0, lives := 3, gameOver := false, gameWon := false,
    level := 1, paused := false, gameStarted := true }

/-- Concrete active state whose ball hits the exact paddle center this tick
(post-integration ball center is x = 160, the paddle center). -/
def sCenterHit : GameState :=
  { paddle := ⟨125, 440⟩, ball := ⟨160, 443⟩, ballVelocity := ⟨0, 1⟩,
    bricks := [], score := 0, lives := 3, gameOver := false, gameWon := false,
    level := 1, paused := false, gameStarted := true }

/-- Concrete active state whose ball hits the paddle with its center just
beyond the paddle's right edge: the overlap test still fires (the ball
rectangle extends `BALL_SIZE / 2` past its center) but the hit offset exceeds
the paddle half-width. -/
def sEdgeHit : GameState :=
  { paddle := ⟨100, 440⟩, ball := ⟨174, 437.5⟩, ballVelocity := ⟨0, 3.5⟩,
    bricks := [], score := 0, lives := 3, gameOver := false, gameWon := false,
    level := 1, paused := false, gameStarted := true }

/-- Concrete active state whose ball rectangle overlaps two adjacent
non-destroyed bricks after integration (ball center lands at (40.5, 59),
between the row-0 bricks at x = 11 and x = 41). -/
def sTwoBricks : GameState :=
  { paddle := ⟨125, 440⟩, ball := ⟨38.5, 58⟩, ballVelocity := ⟨2, 1⟩,
    bricks := [⟨"0-0", 11, 50, false, "c", 50⟩, ⟨"0-1", 41, 50, false, "c", 40⟩],
    score := 0, lives := 3, gameOver := false, gameWon := false,
    level := 1, paused := false, gameStarted := true }

/-- The episode invariant maintained by all reachable states: lives stay in
range and force `gameOver` at zero; bricks keep non-negative points and sit in
the grid band above y = 188 (their tops are at most 170, their height 18);
while the game is not won some brick is still standing; and the two terminal
flags never hold together. -/
def StateInv (s : GameState) : Prop :=
  (0 ≤ s.lives ∧ s.lives ≤ 3 ∧ (s.lives ≤ 0 → s.gameOver = true)) ∧
  (∀ b ∈ s.bricks, 0 ≤ b.points ∧ b.y + BRICK_HEIGHT ≤ 188) ∧
  (s.gameWon = false → ∃ b ∈ s.bricks, b.destroyed = false) ∧
  ¬ (s.gameOver = true ∧ s.gameWon = true)

end

/-! ## Stage bookkeeping lemmas

Each update stage touches only a few fields; the lemmas below record the
untouched fields and characterize the touched ones.  They are proved by
unfolding the stage and splitting its conditionals. -/

@[simp] theorem moveBall_paddle (s : GameState) : (moveBall s).paddle = s.paddle := rfl

@[simp] theorem moveBall_bricks (s : GameState) : (moveBall s).bricks = s.bricks := rfl

@[simp] theorem moveBall_score (s : GameState) : (moveBall s).score = s.score := rfl

@[simp] theorem moveBall_lives (s : GameState) : (moveBall s).lives = s.lives := rfl

@[simp] theorem moveBall_gameOver (s : GameState) : (moveBall s).gameOver = s.gameOver := rfl

@[simp] theorem moveBall_gameWon (s : GameState) : (moveBall s).gameWon = s.gameWon := rfl

@[simp] theorem moveBall_level (s : GameState) : (moveBall s).level = s.level := rfl

@[simp] theorem moveBall_paused (s : GameState) : (moveBall s).paused = s.paused := rfl

@[simp] theorem moveBall_gameStarted (s : GameState) : (moveBall s).gameStarted = s.gameStarted := rfl

@[simp] theorem moveBall_ballVelocity (s : GameState) : (moveBall s).ballVelocity = s.ballVelocity := rfl

@[simp] theorem moveBall_ball (s : GameState) :
    (moveBall s).ball = ⟨s.ball.x + s.ballVelocity.x, s.ball.y + s.ballVelocity.y⟩ := rfl

@[simp] theorem wallBounceX_paddle (s : GameState) : (wallBounceX s).paddle = s.paddle := by
  unfold wallBounceX; split <;> rfl

@[simp] theorem wallBounceX_bricks (s : GameState) : (wallBounceX s).bricks = s.bricks := by
  unfold wallBounceX; split <;> rfl

@[simp] theorem wallBounceX_score (s : GameState) : (wallBounceX s).score = s.score := by
  unfold wallBounceX; split <;> rfl

@[simp] theorem wallBounceX_lives (s : GameState) : (wallBounceX s).lives = s.lives := by
  unfold wallBounceX; split <;> rfl

@[simp] theorem wallBounceX_gameOver (s : GameState) : (wallBounceX s).gameOver = s.gameOver := by
  unfold wallBounceX; split <;> rfl

@[simp] theorem wallBounceX_gameWon (s : GameState) : (wallBounceX s).gameWon = s.gameWon := by
  unfold wallBounceX; split <;> rfl

@[simp] theorem wallBounceX_level (s : GameState) : (wallBounceX s).level = s.level := by
  unfold wallBounceX; split <;> rfl

@[simp] theorem wallBounceX_paused (s : GameState) : (wallBounceX s).paused = s.paused := by
  unfold wallBounceX; split <;> rfl

@[simp] theorem wallBounceX_gameStarted (s : GameState) : (wallBounceX s).gameStarted = s.gameStarted := by
  unfold wallBounceX; split <;> rfl

@[simp] theorem wallBounceX_ball_y (s : GameState) : (wallBounceX s).ball.y = s.ball.y := by
  unfold wallBounceX; split <;> rfl

@[simp] theorem wallBounceX_vel_y (s : GameState) : (wallBounceX s).ballVelocity.y = s.ballVelocity.y := by
  unfold wallBounceX; split <;> rfl

@[simp] theorem wallBounceY_paddle (s : GameState) : (wallBounceY s).paddle = s.paddle := by
  unfold wallBounceY; split <;> rfl

@[simp] theorem wallBounceY_bricks (s : GameState) : (wallBounceY s).bricks = s.bricks := by
  unfold wallBounceY; split <;> rfl

@[simp] theorem wallBounceY_score (s : GameState) : (wallBounceY s).score = s.score := by
  unfold wallBounceY; split <;> rfl

@[simp] theorem wallBounceY_lives (s : GameState) : (wallBounceY s).lives = s.lives := by
  unfold wallBounceY; split <;> rfl

@[simp] theorem wallBounceY_gameOver (s : GameState) : (wallBounceY s).gameOver = s.gameOver := by
  unfold wallBounceY; split <;> rfl

@[simp] theorem wallBounceY_gameWon (s : GameState) : (wallBounceY s).gameWon = s.gameWon := by
  unfold wallBounceY; split <;> rfl

@[simp] theorem wallBounceY_level (s : GameState) : (wallBounceY s).level = s.level := by
  unfold wallBounceY; split <;> rfl

@[simp] theorem wallBounceY_paused (s : GameState) : (wallBounceY s).paused = s.paused := by
  unfold wallBounceY; split <;> rfl

@[simp] theorem wallBounceY_gameStarted (s : GameState) : (wallBounceY s).gameStarted = s.gameStarted := by
  unfold wallBounceY; split <;> rfl

@[simp] theorem wallBounceY_ball_x (s : GameState) : (wallBounceY s).ball.x = s.ball.x := by
  unfold wallBounceY; split <;> rfl

theorem wallBounceY_ball_y (s : GameState) :
    (wallBounceY s).ball.y = if s.ball.y ≤ BALL_SIZE / 2 then BALL_SIZE / 2 else s.ball.y := by
  unfold wallBounceY
  by_cases h : s.ball.y ≤ BALL_SIZE / 2
  · rw [if_pos h, if_pos h]
  · rw [if_neg h, if_neg h]

theorem wallBounce_ball_y (s : GameState) :
    (wallBounce s).ball.y = if s.ball.y ≤ BALL_SIZE / 2 then BALL_SIZE / 2 else s.ball.y := by
  unfold wallBounce
  rw [wallBounceY_ball_y, wallBounceX_ball_y]

@[simp] theorem paddleBounce_paddle (s : GameState) : (paddleBounce s).paddle = s.paddle := by
  unfold paddleBounce; split <;> rfl

@[simp] theorem paddleBounce_ball (s : GameState) : (paddleBounce s).ball = s.ball := by
  unfold paddleBounce; split <;> rfl

@[simp] theorem paddleBounce_bricks (s : GameState) : (paddleBounce s).bricks = s.bricks := by
  unfold paddleBounce; split <;> rfl

@[simp] theorem paddleBounce_score (s : GameState) : (paddleBounce s).score = s.score := by
  unfold paddleBounce; split <;> rfl

@[simp] theorem paddleBounce_lives (s : GameState) : (paddleBounce s).lives = s.lives := by
  unfold paddleBounce; split <;> rfl

@[simp] theorem paddleBounce_gameOver (s : GameState) : (paddleBounce s).gameOver = s.gameOver := by
  unfold paddleBounce; split <;> rfl

@[simp] theorem paddleBounce_gameWon (s : GameState) : (paddleBounce s).gameWon = s.gameWon := by
  unfold paddleBounce; split <;> rfl

@[simp] theorem paddleBounce_level (s : GameState) : (paddleBounce s).level = s.level := by
  unfold paddleBounce; split <;> rfl

@[simp] theorem paddleBounce_paused (s : GameState) : (paddleBounce s).paused = s.paused := by
  unfold paddleBounce; split <;> rfl

@[simp] theorem paddleBounce_gameStarted (s : GameState) : (paddleBounce s).gameStarted = s.gameStarted := by
  unfold paddleBounce; split <;> rfl

theorem paddleBounce_of_hit (s : GameState) (h : paddleHit s) :
    paddleBounce s =
      { s with ballVelocity := ⟨Real.sin (hitPos s * maxAngle) * baseSpeed s.level,
                                -(Real.cos (hitPos s * maxAngle)) * baseSpeed s.level⟩ } := by
  unfold paddleBounce
  rw [if_pos h]

@[simp] theorem brickCollisions_paddle (s : GameState) : (brickCollisions s).paddle = s.paddle := rfl

@[simp] theorem brickCollisions_ball (s : GameState) : (brickCollisions s).ball = s.ball := rfl

@[simp] theorem brickCollisions_lives (s : GameState) : (brickCollisions s).lives = s.lives := rfl

@[simp] theorem brickCollisions_gameOver (s : GameState) : (brickCollisions s).gameOver = s.gameOver := rfl

@[simp] theorem brickCollisions_gameWon (s : GameState) : (brickCollisions s).gameWon = s.gameWon := rfl

@[simp] theorem brickCollisions_level (s : GameState) : (brickCollisions s).level = s.level := rfl

@[simp] theorem brickCollisions_paused (s : GameState) : (brickCollisions s).paused = s.paused := rfl

@[simp] theorem brickCollisions_gameStarted (s : GameState) : (brickCollisions s).gameStarted = s.gameStarted := rfl

theorem brickCollisions_bricks (s : GameState) :
    (brickCollisions s).bricks = (brickPass s.ball s.bricks s.score s.ballVelocity).1 := rfl

theorem brickCollisions_score (s : GameState) :
    (brickCollisions s).score = (brickPass s.ball s.bricks s.score s.ballVelocity).2.1 := rfl

theorem brickCollisions_vel (s : GameState) :
    (brickCollisions s).ballVelocity = (brickPass s.ball s.bricks s.score s.ballVelocity).2.2 := rfl

@[simp] theorem winCheck_paddle (s : GameState) : (winCheck s).paddle = s.paddle := by
  unfold winCheck; split <;> rfl

@[simp] theorem winCheck_ball (s : GameState) : (winCheck s).ball = s.ball := by
  unfold winCheck; split <;> rfl

@[simp] theorem winCheck_ballVelocity (s : GameState) : (winCheck s).ballVelocity = s.ballVelocity := by
  unfold winCheck; split <;> rfl

@[simp] theorem winCheck_bricks (s : GameState) : (winCheck s).bricks = s.bricks := by
  unfold winCheck; split <;> rfl

@[simp] theorem winCheck_score (s : GameState) : (winCheck s).score = s.score := by
  unfold winCheck; split <;> rfl

@[simp] theorem winCheck_lives (s : GameState) : (winCheck s).lives = s.lives := by
  unfold winCheck; split <;> rfl

@[simp] theorem winCheck_gameOver (s : GameState) : (winCheck s).gameOver = s.gameOver := by
  unfold winCheck; split <;> rfl

@[simp] theorem winCheck_level (s : GameState) : (winCheck s).level = s.level := by
  unfold winCheck; split <;> rfl

@[simp] theorem winCheck_paused (s : GameState) : (winCheck s).paused = s.paused := by
  unfold winCheck; split <;> rfl

@[simp] theorem winCheck_gameStarted (s : GameState) : (winCheck s).gameStarted = s.gameStarted := by
  unfold winCheck; split <;> rfl

theorem winCheck_gameWon (s : GameState) :
    (winCheck s).gameWon =
      (if (s.bricks.filter (fun brick => !brick.destroyed)).length = 0 then true
       else s.gameWon) := by
  unfold winCheck
  by_cases h : (s.bricks.filter (fun brick => !brick.destroyed)).length = 0
  · rw [if_pos h, if_pos h]
  · rw [if_neg h, if_neg h]

@[simp] theorem lossCheck_paddle (s : GameState) : (lossCheck s).paddle = s.paddle := by
  unfold lossCheck; split <;> first | rfl | (split <;> rfl)

@[simp] theorem lossCheck_bricks (s : GameState) : (lossCheck s).bricks = s.bricks := by
  unfold lossCheck; split <;> first | rfl | (split <;> rfl)

@[simp] theorem lossCheck_score (s : GameState) : (lossCheck s).score = s.score := by
  unfold lossCheck; split <;> first | rfl | (split <;> rfl)

@[simp] theorem lossCheck_gameWon (s : GameState) : (lossCheck s).gameWon = s.gameWon := by
  unfold lossCheck; split <;> first | rfl | (split <;> rfl)

@[simp] theorem lossCheck_level (s : GameState) : (lossCheck s).level = s.level := by
  unfold lossCheck; split <;> first | rfl | (split <;> rfl)

@[simp] theorem lossCheck_paused (s : GameState) : (lossCheck s).paused = s.paused := by
  unfold lossCheck; split <;> first | rfl | (split <;> rfl)

theorem lossCheck_of_fall_over (s : GameState) (hy : s.ball.y > GAME_HEIGHT)
    (hl : s.lives - 1 ≤ 0) :
    lossCheck s = { s with lives := s.lives - 1, gameOver := true } := by
  unfold lossCheck
  rw [if_pos hy, if_pos hl]

theorem lossCheck_of_fall_reset (s : GameState) (hy : s.ball.y > GAME_HEIGHT)
    (hl : ¬ s.lives - 1 ≤ 0) :
    lossCheck s = { s with lives := s.lives - 1,
                           ball := ⟨GAME_WIDTH / 2, GAME_HEIGHT - 60⟩,
                           ballVelocity := ⟨0, 0⟩,
                           gameStarted := false } := by
  unfold lossCheck
  rw [if_pos hy, if_neg hl]

theorem lossCheck_of_no_fall (s : GameState) (hy : ¬ s.ball.y > GAME_HEIGHT) :
    lossCheck s = s := by
  unfold lossCheck
  rw [if_neg hy]

/-! ## Brick-scan analysis -/

@[simp] theorem markBrick_points (ball : Vec2) (b : Brick) :
    (markBrick ball b).points = b.points := by
  unfold markBrick; split <;> rfl

@[simp] theorem markBrick_id (ball : Vec2) (b : Brick) :
    (markBrick ball b).id = b.id := by
  unfold markBrick; split <;> rfl

@[simp] theorem markBrick_x (ball : Vec2) (b : Brick) :
    (markBrick ball b).x = b.x := by
  unfold markBrick; split <;> rfl

@[simp] theorem markBrick_y (ball : Vec2) (b : Brick) :
    (markBrick ball b).y = b.y := by
  unfold markBrick; split <;> rfl

theorem markBrick_destroyed_iff (ball : Vec2) (b : Brick) :
    (markBrick ball b).destroyed = true ↔
      (b.destroyed = true ∨ checkCollision (ballRect ball) (brickRect b)) := by
  unfold markBrick
  by_cases h : b.destroyed = false ∧ checkCollision (ballRect ball) (brickRect b)
  · rw [if_pos h]
    simp [h.2]
  · rw [if_neg h]
    constructor
    · exact fun hb => Or.inl hb
    · intro hb
      rcases hb with hb | hc
      · exact hb
      · cases hd : b.destroyed
        · exact absurd ⟨hd, hc⟩ h
        · rfl

theorem markBrick_destroyed_mono (ball : Vec2) (b : Brick) (h : b.destroyed = true) :
    (markBrick ball b).destroyed = true := by
  rw [markBrick_destroyed_iff]
  exact Or.inl h

/-- The brick list returned by the scan is the pointwise `markBrick` image. -/
theorem brickPass_bricks (ball : Vec2) (l : List Brick) (sc : ℤ) (v : Vec2) :
    (brickPass ball l sc v).1 = l.map (markBrick ball) := by
  induction l generalizing sc v with
  | nil => rfl
  | cons b rest ih =>
    rw [List.map_cons]
    unfold brickPass
    by_cases h : b.destroyed = false ∧ checkCollision (ballRect ball) (brickRect b)
    · rw [if_pos h]
      simp only [ih]
      congr 1
      unfold markBrick
      rw [if_pos h]
    · rw [if_neg h]
      simp only [ih]
      congr 1
      unfold markBrick
      rw [if_neg h]

/-- The score returned by the scan is the old score plus the points of the
newly destroyed bricks. -/
theorem brickPass_score (ball : Vec2) (l : List Brick) (sc : ℤ) (v : Vec2) :
    (brickPass ball l sc v).2.1 = sc + newlyDestroyedPoints ball l := by
  induction l generalizing sc v with
  | nil => simp [brickPass, newlyDestroyedPoints]
  | cons b rest ih =>
    unfold brickPass newlyDestroyedPoints
    by_cases h : b.destroyed = false ∧ checkCollision (ballRect ball) (brickRect b)
    · rw [if_pos h, if_pos h]
      simp only [ih]
      ring
    · rw [if_neg h, if_neg h]
      simp only [ih]
      ring

theorem newlyDestroyedPoints_nonneg (ball : Vec2) (l : List Brick)
    (h : ∀ b ∈ l, 0 ≤ b.points) : 0 ≤ newlyDestroyedPoints ball l := by
  induction l with
  | nil => simp [newlyDestroyedPoints]
  | cons b rest ih =>
    unfold newlyDestroyedPoints
    have hb : 0 ≤ b.points := h b (by simp)
    have hr : 0 ≤ newlyDestroyedPoints ball rest := ih fun x hx => h x (by simp [hx])
    split
    · exact add_nonneg hb hr
    · simpa using hr

theorem flippedPointsAux_self (l : List Brick) : flippedPointsAux l l = 0 := by
  induction l with
  | nil => rfl
  | cons b rest ih =>
    unfold flippedPointsAux
    rw [if_neg]
    · simpa using ih
    · rintro ⟨h1, h2⟩
      rw [h1] at h2
      exact Bool.false_ne_true h2

theorem flippedPointsAux_map (ball : Vec2) (l : List Brick) :
    flippedPointsAux l (l.map (markBrick ball)) = newlyDestroyedPoints ball l := by
  induction l with
  | nil => rfl
  | cons b rest ih
    =>
    simp only [List.map_cons]
    unfold flippedPointsAux newlyDestroyedPoints
    by_cases h : b.destroyed = false ∧ checkCollision (ballRect ball) (brickRect b)
    · rw [if_pos, if_pos h, ih, markBrick_points]
      refine ⟨h.1, ?_⟩
      rw [markBrick_destroyed_iff]
      exact Or.inr h.2
    · rw [if_neg, if_neg h, ih]
      rintro ⟨h1, h2⟩
      apply h
      refine ⟨h1, ?_⟩
      rcases (markBrick_destroyed_iff ball b).mp h2 with hd | hc
      · rw [h1] at hd
        exact absurd hd Bool.false_ne_true
      · exact hc

/-! ## Guard and pipeline characterization -/

/-- If any of the four guard flags blocks the tick, the update is the
identity. -/
theorem gameLoopStep_guard (s : GameState)
    (h : s.gameOver = true ∨ s.gameWon = true ∨ s.paused = true ∨ s.gameStarted = false) :
    gameLoopStep s = s := by
  unfold gameLoopStep
  rw [if_pos]
  rcases h with h | h | h | h <;> simp [h]

/-- On an active tick the update is the composition of the six stages. -/
theorem gameLoopStep_active (s : GameState) (hA : Active s) :
    gameLoopStep s =
      lossCheck (winCheck (brickCollisions (paddleBounce (wallBounce (moveBall s))))) := by
  unfold gameLoopStep
  rw [if_neg]
  rw [hA.1, hA.2.1, hA.2.2.1, hA.2.2.2]
  simp

@[simp] theorem wallBounce_paddle (s : GameState) : (wallBounce s).paddle = s.paddle := by
  unfold wallBounce; simp

@[simp] theorem wallBounce_bricks (s : GameState) : (wallBounce s).bricks = s.bricks := by
  unfold wallBounce; simp

@[simp] theorem wallBounce_score (s : GameState) : (wallBounce s).score = s.score := by
  unfold wallBounce; simp

@[simp] theorem wallBounce_lives (s : GameState) : (wallBounce s).lives = s.lives := by
  unfold wallBounce; simp

@[simp] theorem wallBounce_gameOver (s : GameState) : (wallBounce s).gameOver = s.gameOver := by
  unfold wallBounce; simp

@[simp] theorem wallBounce_gameWon (s : GameState) : (wallBounce s).gameWon = s.gameWon := by
  unfold wallBounce; simp

@[simp] theorem wallBounce_level (s : GameState) : (wallBounce s).level = s.level := by
  unfold wallBounce; simp

@[simp] theorem wallBounce_paused (s : GameState) : (wallBounce s).paused = s.paused := by
  unfold wallBounce; simp

@[simp] theorem wallBounce_gameStarted (s : GameState) : (wallBounce s).gameStarted = s.gameStarted := by
  unfold wallBounce; simp

/-- On an active tick, the output brick list is the pointwise `markBrick`
image of the input brick list under the post-wall ball position. -/
theorem step_bricks_active (s : GameState) (hA : Active s) :
    (gameLoopStep s).bricks = s.bricks.map (markBrick (wallBounce (moveBall s)).ball) := by
  rw [gameLoopStep_active s hA]
  rw [lossCheck_bricks, winCheck_bricks, brickCollisions_bricks, brickPass_bricks]
  simp

/-- On an active tick, the output score is the input score plus the point
values of the newly destroyed bricks. -/
theorem step_score_active (s : GameState) (hA : Active s) :
    (gameLoopStep s).score = s.score + newlyDestroyedPoints (wallBounce (moveBall s)).ball s.bricks := by
  rw [gameLoopStep_active s hA]
  rw [lossCheck_score, winCheck_score, brickCollisions_score, brickPass_score]
  simp

/-- On an active tick, `gameWon` ends up true exactly when no non-destroyed
brick remains in the output brick list. -/
theorem step_won_iff (s : GameState) (hA : Active s) :
    ((gameLoopStep s).gameWon = true ↔
      ((gameLoopStep s).bricks.filter (fun brick => !brick.destroyed)).length = 0) := by
  rw [gameLoopStep_active s hA]
  rw [lossCheck_bricks, winCheck_bricks, lossCheck_gameWon, winCheck_gameWon]
  have hw : (brickCollisions (paddleBounce (wallBounce (moveBall s)))).gameWon = false := by
    simp [hA.2.2.2]
  rw [hw]
  by_cases h :
      (((brickCollisions (paddleBounce (wallBounce (moveBall s)))).bricks.filter
        (fun brick => !brick.destroyed)).length = 0)
  · rw [if_pos h]
    simp [h]
  · rw [if_neg h]
    simp [h]

/-- The ball's y coordinate just before the loss check equals the
post-integration y whenever the latter is past the bottom edge. -/
theorem preLoss_ball_y_of_fall (s : GameState)
    (hy : s.ball.y + s.ballVelocity.y > GAME_HEIGHT) :
    (winCheck (brickCollisions (paddleBounce (wallBounce (moveBall s))))).ball.y =
      s.ball.y + s.ballVelocity.y := by
  have h6 : ¬ (moveBall s).ball.y ≤ BALL_SIZE / 2 := by
    simp only [moveBall_ball]
    simp only [GAME_HEIGHT] at hy
    simp only [BALL_SIZE]
    intro hle
    linarith
  have hwy : (wallBounce (moveBall s)).ball.y = s.ball.y + s.ballVelocity.y := by
    rw [wallBounce_ball_y, if_neg h6]
    simp
  simpa using hwy

/-- The ball's y coordinate just before the loss check stays at or above the
bottom edge whenever the post-integration y does. -/
theorem preLoss_ball_y_of_no_fall (s : GameState)
    (hy : ¬ s.ball.y + s.ballVelocity.y > GAME_HEIGHT) :
    ¬ (winCheck (brickCollisions (paddleBounce (wallBounce (moveBall s))))).ball.y >
        GAME_HEIGHT := by
  have hub : (winCheck (brickCollisions (paddleBounce (wallBounce (moveBall s))))).ball.y =
      (wallBounce (moveBall s)).ball.y := by simp
  rw [hub, wallBounce_ball_y]
  by_cases h6 : (moveBall s).ball.y ≤ BALL_SIZE / 2
  · rw [if_pos h6]
    simp only [BALL_SIZE, GAME_HEIGHT]
    norm_num
  · rw [if_neg h6]
    simpa using hy

/-- Loss branch of an active tick: lives drop by one; at zero or below the
episode ends, otherwise the ball is re-served and `gameStarted` cleared. -/
theorem step_fall (s : GameState) (hA : Active s)
    (hy : s.ball.y + s.ballVelocity.y > GAME_HEIGHT) :
    (gameLoopStep s).lives = s.lives - 1 ∧
    (s.lives - 1 ≤ 0 → (gameLoopStep s).gameOver = true) ∧
    (0 < s.lives - 1 →
      (gameLoopStep s).ball = ⟨GAME_WIDTH / 2, GAME_HEIGHT - 60⟩ ∧
      (gameLoopStep s).ballVelocity = ⟨0, 0⟩ ∧
      (gameLoopStep s).gameStarted = false ∧
      (gameLoopStep s).gameOver = false) := by
  rw [gameLoopStep_active s hA]
  have hy2 : (winCheck (brickCollisions (paddleBounce (wallBounce (moveBall s))))).ball.y >
      GAME_HEIGHT := by
    rw [preLoss_ball_y_of_fall s hy]
    exact hy
  have hlv : (winCheck (brickCollisions (paddleBounce (wallBounce (moveBall s))))).lives =
      s.lives := by simp
  have hgo : (winCheck (brickCollisions (paddleBounce (wallBounce (moveBall s))))).gameOver =
      false := by simp [hA.2.2.1]
  by_cases hl : s.lives - 1 ≤ 0
  · rw [lossCheck_of_fall_over _ hy2 (by rw [hlv]; exact hl)]
    refine ⟨by simp [hlv], fun _ => rfl, fun hpos => absurd hl (by omega)⟩
  · rw [lossCheck_of_fall_reset _ hy2 (by rw [hlv]; exact hl)]
    exact ⟨by simp [hlv], fun hc => absurd hc hl, fun _ => ⟨rfl, rfl, rfl, by simp [hA.2.2.1]⟩⟩

/-- No-loss branch of an active tick: lives, `gameOver` and `gameStarted` are
untouched. -/
theorem step_no_fall (s : GameState) (hA : Active s)
    (hy : ¬ s.ball.y + s.ballVelocity.y > GAME_HEIGHT) :
    (gameLoopStep s).lives = s.lives ∧
    (gameLoopStep s).gameOver = s.gameOver ∧
    (gameLoopStep s).gameStarted = s.gameStarted := by
  rw [gameLoopStep_active s hA]
  rw [lossCheck_of_no_fall _ (preLoss_ball_y_of_no_fall s hy)]
  refine ⟨by simp, by simp, by simp⟩

/-! ## Initial bricks and the episode invariant -/

@[simp] theorem mkBrick_destroyed (row col : ℕ) : (mkBrick row col).destroyed = false := rfl

@[simp] theorem mkBrick_y (row col : ℕ) :
    (mkBrick row col).y = 50 + (row : ℝ) * (BRICK_HEIGHT + BRICK_PADDING) := rfl

@[simp] theorem mkBrick_points_eq (row col : ℕ) :
    (mkBrick row col).points = (BRICK_CONFIGS.getD (row % BRICK_CONFIGS.length) ⟨"", 0⟩).points := rfl

theorem configs_points_nonneg (i : ℕ) : 0 ≤ (BRICK_CONFIGS.getD i ⟨"", 0⟩).points := by
  rcases i with _ | _ | _ | _ | _ | _ | _ | i
  · decide
  · decide
  · decide
  · decide
  · decide
  · decide
  · decide
  · simp [BRICK_CONFIGS, List.getD_cons_succ, List.getD]

theorem mem_initialBricks (b : Brick) (hb : b ∈ initialBricks) :
    b.destroyed = false ∧ 0 ≤ b.points ∧ b.y + BRICK_HEIGHT ≤ 188 := by
  unfold initialBricks at hb
  rw [List.mem_flatMap] at hb
  obtain ⟨row, hrow, hb⟩ := hb
  rw [List.mem_map] at hb
  obtain ⟨col, _, rfl⟩ := hb
  rw [List.mem_range] at hrow
  refine ⟨rfl, by rw [mkBrick_points_eq]; exact configs_points_nonneg _, ?_⟩
  have hrow6 : (row : ℝ) ≤ 6 := by
    exact_mod_cast Nat.lt_succ_iff.mp (by simpa [BRICK_ROWS] using hrow)
  rw [mkBrick_y]
  simp only [BRICK_HEIGHT, BRICK_PADDING]
  linarith

theorem initialBricks_has_brick : ∃ b ∈ initialBricks, b.destroyed = false := by
  refine ⟨mkBrick 0 0, ?_, rfl⟩
  unfold initialBricks
  rw [List.mem_flatMap]
  exact ⟨0, List.mem_range.mpr (by norm_num [BRICK_ROWS]),
         List.mem_map.mpr ⟨0, List.mem_range.mpr (by norm_num [BRICK_COLS]), rfl⟩⟩

theorem stateInv_init (lvl : ℤ) : StateInv (createInitialState lvl) := by
  refine ⟨⟨?_, ?_, ?_⟩, ?_, ?_, ?_⟩
  · show (0 : ℤ) ≤ 3
    norm_num
  · show (3 : ℤ) ≤ 3
    norm_num
  · intro h
    simp [createInitialState] at h
  · intro b hb
    exact (mem_initialBricks b hb).2
  · intro _
    exact initialBricks_has_brick
  · rintro ⟨h1, _⟩
    exact Bool.false_ne_true h1

theorem step_of_not_active (s : GameState) (h : ¬ Active s) : gameLoopStep s = s := by
  apply gameLoopStep_guard
  by_cases h1 : s.gameOver = true
  · exact Or.inl h1
  by_cases h2 : s.gameWon = true
  · exact Or.inr (Or.inl h2)
  by_cases h3 : s.paused = true
  · exact Or.inr (Or.inr (Or.inl h3))
  by_cases h4 : s.gameStarted = false
  · exact Or.inr (Or.inr (Or.inr h4))
  exfalso
  simp only [Bool.not_eq_true] at h1 h2 h3
  simp only [Bool.not_eq_false] at h4
  exact h ⟨h4, h3, h1, h2⟩

theorem wall_y_of_fall (s : GameState) (hy : s.ball.y + s.ballVelocity.y > GAME_HEIGHT) :
    (wallBounce (moveBall s)).ball.y = s.ball.y + s.ballVelocity.y := by
  have h := preLoss_ball_y_of_fall s hy
  simpa using h

/-- After one tick, `gameOver` and `gameWon` cannot both hold — the loss check
needs the ball below y = 480 while destroying the last brick needs the ball
rectangle to overlap a brick, all of which lie above y = 188. -/
theorem step_not_both (s : GameState) (hInv : StateInv s) :
    ¬ ((gameLoopStep s).gameOver = true ∧ (gameLoopStep s).gameWon = true) := by
  by_cases hA : Active s
  · rintro ⟨hO, hW⟩
    by_cases hy : s.ball.y + s.ballVelocity.y > GAME_HEIGHT
    · obtain ⟨b0, hb0mem, hb0d⟩ := hInv.2.2.1 hA.2.2.2
      have hbricks := step_bricks_active s hA
      have hmem' : markBrick ((wallBounce (moveBall s)).ball) b0 ∈ (gameLoopStep s).bricks := by
        rw [hbricks]
        exact List.mem_map_of_mem _ hb0mem
      have hlen := (step_won_iff s hA).mp hW
      have hfe : (gameLoopStep s).bricks.filter (fun brick => !brick.destroyed) = [] :=
        List.length_eq_zero.mp hlen
      have hd : (markBrick ((wallBounce (moveBall s)).ball) b0).destroyed = true := by
        by_contra hbd
        simp only [Bool.not_eq_true] at hbd
        have hmf : markBrick ((wallBounce (moveBall s)).ball) b0 ∈
            (gameLoopStep s).bricks.filter (fun brick => !brick.destroyed) :=
          List.mem_filter.mpr ⟨hmem', by rw [hbd]; rfl⟩
        rw [hfe] at hmf
        exact absurd hmf (List.not_mem_nil _)
      rcases (markBrick_destroyed_iff _ _).mp hd with hx | hcol
      · rw [hb0d] at hx
        exact Bool.false_ne_true hx
      · have hyb : (wallBounce (moveBall s)).ball.y - BALL_SIZE / 2 < b0.y + BRICK_HEIGHT := by
          have h1 := hcol.2.2.1
          simpa [ballRect, brickRect] using h1
        have hb0y : b0.y + BRICK_HEIGHT ≤ 188 := (hInv.2.1 b0 hb0mem).2
        have hwy := wall_y_of_fall s hy
        rw [hwy] at hyb
        simp only [GAME_HEIGHT] at hy
        simp only [BALL_SIZE] at hyb
        linarith
    · have hno := step_no_fall s hA hy
      rw [hno.2.1, hA.2.2.1] at hO
      exact Bool.false_ne_true hO
  · rw [step_of_not_active s hA]
    exact hInv.2.2.2

/-- One tick preserves the episode invariant. -/
theorem stateInv_tick (s : GameState) (hInv : StateInv s) : StateInv (gameLoopStep s) := by
  by_cases hA : Active s
  · refine ⟨?_, ?_, ?_, step_not_both s hInv⟩
    · -- lives bookkeeping
      have hlive1 : ¬ s.lives ≤ 0 := fun h0 => by
        have := hInv.1.2.2 h0
        rw [hA.2.2.1] at this
        exact Bool.false_ne_true this
      by_cases hy : s.ball.y + s.ballVelocity.y > GAME_HEIGHT
      · obtain ⟨hl, hover, hreset⟩ := step_fall s hA hy
        refine ⟨by omega, by have := hInv.1.2.1; omega, ?_⟩
        intro h0
        rw [hl] at h0
        exact hover h0
      · obtain ⟨hl, hover, _⟩ := step_no_fall s hA hy
        rw [hl, hover]
        exact ⟨by omega, by have := hInv.1.2.1; omega, fun h0 => absurd h0 hlive1⟩
    · intro b hb
      rw [step_bricks_active s hA] at hb
      rw [List.mem_map] at hb
      obtain ⟨a, ha, rfl⟩ := hb
      have := hInv.2.1 a ha
      simpa using this
    · intro hW
      have hne : ((gameLoopStep s).bricks.filter (fun brick => !brick.destroyed)) ≠ [] := by
        intro h0
        have hlen : ((gameLoopStep s).bricks.filter (fun brick => !brick.destroyed)).length = 0 := by
          rw [h0]
          rfl
        have htrue := (step_won_iff s hA).mpr hlen
        rw [hW] at htrue
        exact Bool.false_ne_true htrue
      obtain ⟨x, hx⟩ := List.exists_mem_of_ne_nil _ hne
      have hx2 := List.mem_filter.mp hx
      refine ⟨x, hx2.1, ?_⟩
      simpa using hx2.2
  · rw [step_of_not_active s hA]
    exact hInv

/-! ## Reachability and tick sequences -/

theorem reachable_inv (s : GameState) (h : Reachable s) : StateInv s := by
  induction h with
  | init lvl => exact stateInv_init lvl
  | tick _ ih => exact stateInv_tick _ ih
  | start vx _ _ _ _ ih => exact ih
  | pause _ ih => exact ih
  | drag gx _ ih => exact ih

theorem step_fix_of_gameOver (s : GameState) (h : s.gameOver = true) : gameLoopStep s = s :=
  gameLoopStep_guard s (Or.inl h)

theorem tickSeq_succ (lvl : ℤ) (n : ℕ) :
    tickSeq lvl (n + 1) = gameLoopStep (tickSeq lvl n) := by
  unfold tickSeq
  rw [Function.iterate_succ_apply']

theorem tickSeq_reachable (lvl : ℤ) (n : ℕ) : Reachable (tickSeq lvl n) := by
  induction n with
  | zero => exact Reachable.init lvl
  | succ n ih =>
    rw [tickSeq_succ]
    exact Reachable.tick ih

/-- Two-list form of the per-tick score identity: the new score is the old
score plus the points of exactly the bricks whose destroyed flag flipped. -/
theorem step_score_flipped (s : GameState) :
    (gameLoopStep s).score = s.score + flippedPointsAux s.bricks (gameLoopStep s).bricks := by
  by_cases hA : Active s
  · rw [step_score_active s hA, step_bricks_active s hA, flippedPointsAux_map]
  · rw [step_of_not_active s hA, flippedPointsAux_self, add_zero]

theorem step_score_mono (s : GameState) (hp : ∀ b ∈ s.bricks, 0 ≤ b.points) :
    s.score ≤ (gameLoopStep s).score := by
  by_cases hA : Active s
  · rw [step_score_active s hA]
    have hn := newlyDestroyedPoints_nonneg ((wallBounce (moveBall s)).ball) s.bricks hp
    omega
  · rw [step_of_not_active s hA]

theorem step_bricks_length (s : GameState) :
    (gameLoopStep s).bricks.length = s.bricks.length := by
  by_cases hA : Active s
  · rw [step_bricks_active s hA, List.length_map]
  · rw [step_of_not_active s hA]

theorem tickSeq_bricks_length (lvl : ℤ) (n : ℕ) :
    (tickSeq lvl n).bricks.length = initialBricks.length := by
  induction n with
  | zero => rfl
  | succ n ih => rw [tickSeq_succ, step_bricks_length, ih]

theorem step_brick_get (s : GameState) (i : ℕ) (hi : i < s.bricks.length)
    (hi2 : i < (gameLoopStep s).bricks.length) :
    (gameLoopStep s).bricks[i] = s.bricks[i] ∨
    (gameLoopStep s).bricks[i] = markBrick ((wallBounce (moveBall s)).ball) (s.bricks[i]) := by
  by_cases hA : Active s
  · right
    simp [step_bricks_active s hA]
  · left
    simp [step_of_not_active s hA]

/-- Along a tick sequence every brick keeps its identity and point value, and
its destroyed flag only ever moves from `false` to `true`. -/
theorem tickSeq_brick_evolution (lvl : ℤ) (i n m : ℕ) (hnm : n ≤ m)
    (hn : i < (tickSeq lvl n).bricks.length) :
    ∀ hm : i < (tickSeq lvl m).bricks.length,
      ((tickSeq lvl m).bricks[i]).id = ((tickSeq lvl n).bricks[i]).id ∧
      ((tickSeq lvl m).bricks[i]).points = ((tickSeq lvl n).bricks[i]).points ∧
      (((tickSeq lvl n).bricks[i]).destroyed = true →
        ((tickSeq lvl m).bricks[i]).destroyed = true) := by
  induction m, hnm using Nat.le_induction with
  | base => exact fun hm => ⟨rfl, rfl, fun h => h⟩
  | succ m hnm ih =>
    intro hm
    have hlm : i < (tickSeq lvl m).bricks.length := by
      rw [tickSeq_bricks_length]
      rw [tickSeq_bricks_length] at hm
      exact hm
    obtain ⟨hid, hpts, hdes⟩ := ih hlm
    have hm2 : i < (gameLoopStep (tickSeq lvl m)).bricks.length := by
      rw [← tickSeq_succ]
      exact hm
    have hrel := step_brick_get (tickSeq lvl m) i hlm hm2
    have hrw : (tickSeq lvl (m + 1)).bricks[i] = (gameLoopStep (tickSeq lvl m)).bricks[i] := by
      congr 1
      rw [tickSeq_succ]
    rcases hrel with he | he
    · rw [hrw, he]
      exact ⟨hid, hpts, hdes⟩
    · rw [hrw, he]
      refine ⟨by rw [markBrick_id]; exact hid, by rw [markBrick_points]; exact hpts, ?_⟩
      intro hd
      exact markBrick_destroyed_mono _ _ (hdes hd)

theorem tickSeq_score_mono (lvl : ℤ) (n m : ℕ) (hnm : n ≤ m) :
    (tickSeq lvl n).score ≤ (tickSeq lvl m).score := by
  induction m, hnm using Nat.le_induction with
  | base => exact le_refl _
  | succ m hnm ih =>
    have hp : ∀ b ∈ (tickSeq lvl m).bricks, 0 ≤ b.points := fun b hb =>
      ((reachable_inv _ (tickSeq_reachable lvl m)).2.1 b hb).1
    calc (tickSeq lvl n).score ≤ (tickSeq lvl m).score := ih
      _ ≤ (tickSeq lvl (m + 1)).score := by
          rw [tickSeq_succ]
          exact step_score_mono _ hp

/-! ## Claim theorems -/

/-- Claim C1: whenever `gameStarted` is false, or `paused` is true, or
`gameOver` is true, or `gameWon` is true, one invocation of the simulation
step returns the state unchanged, so every field of the output equals the
corresponding field of the input. -/
theorem claim_C1_guard_noop (s : GameState)
    (h : s.gameStarted = false ∨ s.paused = true ∨ s.gameOver = true ∨ s.gameWon = true) :
    gameLoopStep s = s := by
  apply gameLoopStep_guard
  rcases h with h | h | h | h
  · exact Or.inr (Or.inr (Or.inr h))
  · exact Or.inr (Or.inr (Or.inl h))
  · exact Or.inl h
  · exact Or.inr (Or.inl h)

theorem claim_C1_guard_noop_witness :
    ((createInitialState 1).gameStarted = false ∨ (createInitialState 1).paused = true ∨
      (createInitialState 1).gameOver = true ∨ (createInitialState 1).gameWon = true) ∧
    gameLoopStep (createInitialState 1) = createInitialState 1 :=
  ⟨Or.inl rfl, claim_C1_guard_noop (createInitialState 1) (Or.inl rfl)⟩

/-- Claim C2: on an active tick whose post-integration ball y exceeds the
field height, the step decrements lives by exactly one; at `lives - 1 ≤ 0` it
sets `gameOver`, otherwise it re-serves the ball at
(`GAME_WIDTH / 2`, `GAME_HEIGHT - 60`) with zero velocity and clears
`gameStarted`.  If the post-integration y does not exceed the field height,
lives, `gameOver` and `gameStarted` are unchanged. -/
theorem claim_C2_life_loss (s : GameState) (hA : Active s) :
    (s.ball.y + s.ballVelocity.y > GAME_HEIGHT →
      (gameLoopStep s).lives = s.lives - 1 ∧
      (s.lives - 1 ≤ 0 → (gameLoopStep s).gameOver = true) ∧
      (0 < s.lives - 1 →
        (gameLoopStep s).ball = ⟨GAME_WIDTH / 2, GAME_HEIGHT - 60⟩ ∧
        (gameLoopStep s).ballVelocity = ⟨0, 0⟩ ∧
        (gameLoopStep s).gameStarted = false)) ∧
    (¬ s.ball.y + s.ballVelocity.y > GAME_HEIGHT →
      (gameLoopStep s).lives = s.lives ∧
      (gameLoopStep s).gameOver = s.gameOver ∧
      (gameLoopStep s).gameStarted = s.gameStarted) := by
  constructor
  · intro hy
    obtain ⟨h1, h2, h3⟩ := step_fall s hA hy
    exact ⟨h1, h2, fun hp => ⟨(h3 hp).1, (h3 hp).2.1, (h3 hp).2.2.1⟩⟩
  · intro hy
    exact step_no_fall s hA hy

theorem claim_C2_life_loss_witness :
    Active sLossDemo ∧
    sLossDemo.ball.y + sLossDemo.ballVelocity.y > GAME_HEIGHT ∧
    (gameLoopStep sLossDemo).lives = sLossDemo.lives - 1 ∧
    (gameLoopStep sLossDemo).ball = ⟨GAME_WIDTH / 2, GAME_HEIGHT - 60⟩ ∧
    (gameLoopStep sLossDemo).ballVelocity = ⟨0, 0⟩ ∧
    (gameLoopStep sLossDemo).gameStarted = false := by
  have hA : Active sLossDemo := ⟨rfl, rfl, rfl, rfl⟩
  have hy : sLossDemo.ball.y + sLossDemo.ballVelocity.y > GAME_HEIGHT := by
    norm_num [sLossDemo, GAME_HEIGHT]
  have h := (claim_C2_life_loss sLossDemo hA).1 hy
  have hp : (0 : ℤ) < sLossDemo.lives - 1 := by norm_num [sLossDemo]
  exact ⟨hA, hy, h.1, (h.2.2 hp).1, (h.2.2 hp).2.1, (h.2.2 hp).2.2⟩

/-- Claim C3: on an active tick with a non-empty brick field, the step sets
`gameWon` exactly when, after this tick's brick-collision processing, no
non-destroyed brick remains; in particular, over a run that destroys all
bricks, `gameWon` becomes true exactly on the tick destroying the last brick
and on no earlier tick. -/
theorem claim_C3_win_iff (s : GameState) (hA : Active s) (_hne : s.bricks ≠ []) :
    ((gameLoopStep s).gameWon = true ↔
      ((gameLoopStep s).bricks.filter (fun brick => !brick.destroyed)).length = 0) :=
  step_won_iff s hA

theorem claim_C3_win_iff_witness :
    Active sWinDemo ∧ sWinDemo.bricks ≠ [] ∧
    ((gameLoopStep sWinDemo).gameWon = true ↔
      ((gameLoopStep sWinDemo).bricks.filter (fun brick => !brick.destroyed)).length = 0) := by
  have hA : Active sWinDemo := ⟨rfl, rfl, rfl, rfl⟩
  have hne : sWinDemo.bricks ≠ [] := by simp [sWinDemo]
  exact ⟨hA, hne, claim_C3_win_iff sWinDemo hA hne⟩

theorem sCenterHit_wall : wallBounce (moveBall sCenterHit) = moveBall sCenterHit := by
  unfold wallBounce wallBounceX wallBounceY moveBall sCenterHit
  norm_num [BALL_SIZE, GAME_WIDTH]

theorem sCenterHit_fires : paddleHit (wallBounce (moveBall sCenterHit)) := by
  rw [sCenterHit_wall]
  unfold paddleHit checkCollision ballRect paddleRect moveBall sCenterHit
  norm_num [BALL_SIZE, PADDLE_WIDTH, PADDLE_HEIGHT]

theorem sCenterHit_hitPos : hitPos (wallBounce (moveBall sCenterHit)) = 0 := by
  rw [sCenterHit_wall]
  unfold hitPos moveBall sCenterHit
  norm_num [PADDLE_WIDTH]

/-- Claim C4: on an active tick in which the paddle branch fires, the
post-bounce velocity is `baseSpeed * (sin (hitPos * maxAngle),
-cos (hitPos * maxAngle))`; a center hit (`hitPos = 0`) gives a straight
vertical bounce (`x` component zero, `y` component negative), and an edge hit
(`hitPos = ±1`) gives exactly the maximum configured deflection `±maxAngle`
from vertical. -/
theorem claim_C4_paddle_bounce (s : GameState) (hA : Active s) (hlvl : 1 ≤ s.level)
    (hp : paddleHit (wallBounce (moveBall s))) :
    gameLoopStep s =
      lossCheck (winCheck (brickCollisions (paddleBounce (wallBounce (moveBall s))))) ∧
    (paddleBounce (wallBounce (moveBall s))).ballVelocity =
      ⟨Real.sin (hitPos (wallBounce (moveBall s)) * maxAngle) * baseSpeed s.level,
       -(Real.cos (hitPos (wallBounce (moveBall s)) * maxAngle)) * baseSpeed s.level⟩ ∧
    (hitPos (wallBounce (moveBall s)) = 0 →
      (paddleBounce (wallBounce (moveBall s))).ballVelocity.x = 0 ∧
      (paddleBounce (wallBounce (moveBall s))).ballVelocity.y < 0) ∧
    (hitPos (wallBounce (moveBall s)) = 1 →
      hitPos (wallBounce (moveBall s)) * maxAngle = maxAngle) ∧
    (hitPos (wallBounce (moveBall s)) = -1 →
      hitPos (wallBounce (moveBall s)) * maxAngle = -maxAngle) := by
  have ht : (wallBounce (moveBall s)).level = s.level := by simp
  have hb := paddleBounce_of_hit _ hp
  have hspeed : (0 : ℝ) < baseSpeed s.level := by
    unfold baseSpeed
    have hcast : (1 : ℝ) ≤ (s.level : ℝ) := by exact_mod_cast hlvl
    linarith
  refine ⟨gameLoopStep_active s hA, ?_, ?_, ?_, ?_⟩
  · rw [hb, ht]
  · intro h0
    rw [hb, ht]
    constructor
    · show Real.sin (hitPos (wallBounce (moveBall s)) * maxAngle) * baseSpeed s.level = 0
      rw [h0, zero_mul, Real.sin_zero, zero_mul]
    · show -(Real.cos (hitPos (wallBounce (moveBall s)) * maxAngle)) * baseSpeed s.level < 0
      rw [h0, zero_mul, Real.cos_zero]
      linarith
  · intro h1
    rw [h1, one_mul]
  · intro h1
    rw [h1, neg_one_mul]

theorem claim_C4_paddle_bounce_witness :
    Active sCenterHit ∧ 1 ≤ sCenterHit.level ∧
    paddleHit (wallBounce (moveBall sCenterHit)) ∧
    hitPos (wallBounce (moveBall sCenterHit)) = 0 ∧
    (paddleBounce (wallBounce (moveBall sCenterHit))).ballVelocity.x = 0 ∧
    (paddleBounce (wallBounce (moveBall sCenterHit))).ballVelocity.y < 0 := by
  have hA : Active sCenterHit := ⟨rfl, rfl, rfl, rfl⟩
  have hl : (1 : ℤ) ≤ sCenterHit.level := by norm_num [sCenterHit]
  have hf := sCenterHit_fires
  have h0 := sCenterHit_hitPos
  obtain ⟨-, -, hcenter, -, -⟩ := claim_C4_paddle_bounce sCenterHit hA hl hf
  exact ⟨hA, hl, hf, h0, (hcenter h0).1, (hcenter h0).2⟩

theorem sEdgeHit_wall : wallBounce (moveBall sEdgeHit) = moveBall sEdgeHit := by
  unfold wallBounce wallBounceX wallBounceY moveBall sEdgeHit
  norm_num [BALL_SIZE, GAME_WIDTH]

theorem sEdgeHit_fires : paddleHit (wallBounce (moveBall sEdgeHit)) := by
  rw [sEdgeHit_wall]
  unfold paddleHit checkCollision ballRect paddleRect moveBall sEdgeHit
  norm_num [BALL_SIZE, PADDLE_WIDTH, PADDLE_HEIGHT]

/-- Claim C7 counterexample: an active tick in which the paddle branch fires
with `hitPos > 1`, refuting "hitPos lies in [-1, 1]": the ball's center is
past the paddle's right edge while its rectangle still overlaps the paddle,
so the bounce angle exceeds `maxAngle`. -/
theorem claim_C7_counterexample :
    Active sEdgeHit ∧
    paddleHit (wallBounce (moveBall sEdgeHit)) ∧
    1 < hitPos (wallBounce (moveBall sEdgeHit)) := by
  refine ⟨⟨rfl, rfl, rfl, rfl⟩, sEdgeHit_fires, ?_⟩
  rw [sEdgeHit_wall]
  unfold hitPos moveBall sEdgeHit
  norm_num [PADDLE_WIDTH]

/-- Claim C7 (amended): when the paddle branch fires, the overlap test bounds
`hitPos` strictly within (-(41/35), 41/35), not [-1, 1] — the ball rectangle
extends `BALL_SIZE / 2 = 6` beyond its center, so the center can sit up to 41
from the paddle center while still overlapping; consequently the bounce-angle
magnitude is below `(41/35) * maxAngle`, not capped at `maxAngle`. -/
theorem claim_C7_amended (s : GameState) (_hA : Active s)
    (hp : paddleHit (wallBounce (moveBall s))) :
    -(41 / 35) < hitPos (wallBounce (moveBall s)) ∧
    hitPos (wallBounce (moveBall s)) < 41 / 35 ∧
    |hitPos (wallBounce (moveBall s)) * maxAngle| < (41 / 35) * maxAngle := by
  obtain ⟨hcol, _⟩ := hp
  obtain ⟨h1, h2, _, _⟩ := hcol
  unfold ballRect paddleRect at h1 h2
  dsimp only at h1 h2
  simp only [BALL_SIZE, PADDLE_WIDTH] at h1 h2
  have hb1 : -(41 / 35) < hitPos (wallBounce (moveBall s)) := by
    unfold hitPos
    simp only [PADDLE_WIDTH]
    rw [lt_div_iff₀ (by norm_num : (0 : ℝ) < 70 / 2)]
    nlinarith
  have hb2 : hitPos (wallBounce (moveBall s)) < 41 / 35 := by
    unfold hitPos
    simp only [PADDLE_WIDTH]
    rw [div_lt_iff₀ (by norm_num : (0 : ℝ) < 70 / 2)]
    nlinarith
  have hm : (0 : ℝ) < maxAngle := by
    unfold maxAngle
    positivity
  refine ⟨hb1, hb2, ?_⟩
  have habs : |hitPos (wallBounce (moveBall s))| < 41 / 35 := abs_lt.mpr ⟨by linarith, hb2⟩
  calc |hitPos (wallBounce (moveBall s)) * maxAngle|
      = |hitPos (wallBounce (moveBall s))| * maxAngle := by rw [abs_mul, abs_of_pos hm]
    _ < (41 / 35) * maxAngle := mul_lt_mul_of_pos_right habs hm

theorem claim_C7_amended_witness :
    Active sEdgeHit ∧ paddleHit (wallBounce (moveBall sEdgeHit)) ∧
    -(41 / 35) < hitPos (wallBounce (moveBall sEdgeHit)) ∧
    hitPos (wallBounce (moveBall sEdgeHit)) < 41 / 35 := by
  have hA : Active sEdgeHit := ⟨rfl, rfl, rfl, rfl⟩
  have h := claim_C7_amended sEdgeHit hA sEdgeHit_fires
  exact ⟨hA, sEdgeHit_fires, h.1, h.2.1⟩

theorem iterate_reachable (s : GameState) (h : Reachable s) (n : ℕ) :
    Reachable (gameLoopStep^[n] s) := by
  induction n with
  | zero => exact h
  | succ n ih =>
    rw [Function.iterate_succ_apply']
    exact Reachable.tick ih

theorem iterate_bricks_length (s : GameState) (n : ℕ) :
    (gameLoopStep^[n] s).bricks.length = s.bricks.length := by
  induction n with
  | zero => rfl
  | succ n ih => rw [Function.iterate_succ_apply', step_bricks_length, ih]

/-- Along any tick sequence, every brick keeps its identity and point value
and its destroyed flag only ever moves from `false` to `true`. -/
theorem iterate_brick_evolution (s : GameState) (i n m : ℕ) (hnm : n ≤ m)
    (hn : i < (gameLoopStep^[n] s).bricks.length) :
    ∀ hm : i < (gameLoopStep^[m] s).bricks.length,
      ((gameLoopStep^[m] s).bricks[i]).id = ((gameLoopStep^[n] s).bricks[i]).id ∧
      ((gameLoopStep^[m] s).bricks[i]).points = ((gameLoopStep^[n] s).bricks[i]).points ∧
      (((gameLoopStep^[n] s).bricks[i]).destroyed = true →
        ((gameLoopStep^[m] s).bricks[i]).destroyed = true) := by
  induction m, hnm using Nat.le_induction with
  | base => exact fun hm => ⟨rfl, rfl, fun h => h⟩
  | succ m hnm ih =>
    intro hm
    have hlm : i < (gameLoopStep^[m] s).bricks.length := by
      rw [iterate_bricks_length]
      rw [iterate_bricks_length] at hm
      exact hm
    obtain ⟨hid, hpts, hdes⟩ := ih hlm
    have hm2 : i < (gameLoopStep (gameLoopStep^[m] s)).bricks.length := by
      have hm3 := hm
      rw [Function.iterate_succ_apply'] at hm3
      exact hm3
    have hrel := step_brick_get (gameLoopStep^[m] s) i hlm hm2
    have hrw : (gameLoopStep^[m + 1] s).bricks[i] =
        (gameLoopStep (gameLoopStep^[m] s)).bricks[i] := by
      congr 1
      rw [Function.iterate_succ_apply']
    rcases hrel with he | he
    · rw [hrw, he]
      exact ⟨hid, hpts, hdes⟩
    · rw [hrw, he]
      refine ⟨by rw [markBrick_id]; exact hid, by rw [markBrick_points]; exact hpts, ?_⟩
      intro hd
      exact markBrick_destroyed_mono _ _ (hdes hd)

theorem iterate_score_mono (s : GameState) (h : Reachable s) (n m : ℕ) (hnm : n ≤ m) :
    (gameLoopStep^[n] s).score ≤ (gameLoopStep^[m] s).score := by
  induction m, hnm using Nat.le_induction with
  | base => exact le_refl _
  | succ m hnm ih =>
    have hp : ∀ b ∈ (gameLoopStep^[m] s).bricks, 0 ≤ b.points := fun b hb =>
      ((reachable_inv _ (iterate_reachable s h m)).2.1 b hb).1
    calc (gameLoopStep^[n] s).score ≤ (gameLoopStep^[m] s).score := ih
      _ ≤ (gameLoopStep^[m + 1] s).score := by
          rw [Function.iterate_succ_apply']
          exact step_score_mono _ hp

/-- Claim C5: across any sequence of simulation ticks from a reachable game
state (in particular from a fresh initial state, before or after serving),
score is monotonically non-decreasing; each brick keeps its id and point
value and its destroyed flag only flips from false to true, never back; and
each tick adds to the score exactly the points of the bricks whose flags flip
on that tick, so each brick contributes its points exactly once, on the tick
that flips it. -/
theorem claim_C5_score_once (s : GameState) (h : Reachable s) (n m : ℕ) (hnm : n ≤ m) :
    (gameLoopStep^[n] s).score ≤ (gameLoopStep^[m] s).score ∧
    (∀ i : ℕ, ∀ hn : i < (gameLoopStep^[n] s).bricks.length,
      ∀ hm : i < (gameLoopStep^[m] s).bricks.length,
      ((gameLoopStep^[m] s).bricks[i]).id = ((gameLoopStep^[n] s).bricks[i]).id ∧
      ((gameLoopStep^[m] s).bricks[i]).points = ((gameLoopStep^[n] s).bricks[i]).points ∧
      (((gameLoopStep^[n] s).bricks[i]).destroyed = true →
        ((gameLoopStep^[m] s).bricks[i]).destroyed = true)) ∧
    (gameLoopStep^[n + 1] s).score =
      (gameLoopStep^[n] s).score +
        flippedPointsAux (gameLoopStep^[n] s).bricks (gameLoopStep^[n + 1] s).bricks := by
  refine ⟨iterate_score_mono s h n m hnm, ?_, ?_⟩
  · intro i hn hm
    exact iterate_brick_evolution s i n m hnm hn hm
  · rw [Function.iterate_succ_apply']
    exact step_score_flipped (gameLoopStep^[n] s)

theorem claim_C5_score_once_witness :
    (Reachable (createInitialState 1) ∧ (0 : ℕ) ≤ 1) ∧
    ((gameLoopStep^[0] (createInitialState 1)).score ≤
        (gameLoopStep^[1] (createInitialState 1)).score ∧
     (∀ i : ℕ, ∀ hn : i < (gameLoopStep^[0] (createInitialState 1)).bricks.length,
       ∀ hm : i < (gameLoopStep^[1] (createInitialState 1)).bricks.length,
       ((gameLoopStep^[1] (createInitialState 1)).bricks[i]).id =
           ((gameLoopStep^[0] (createInitialState 1)).bricks[i]).id ∧
       ((gameLoopStep^[1] (createInitialState 1)).bricks[i]).points =
           ((gameLoopStep^[0] (createInitialState 1)).bricks[i]).points ∧
       (((gameLoopStep^[0] (createInitialState 1)).bricks[i]).destroyed = true →
         ((gameLoopStep^[1] (createInitialState 1)).bricks[i]).destroyed = true)) ∧
     (gameLoopStep^[0 + 1] (createInitialState 1)).score =
       (gameLoopStep^[0] (createInitialState 1)).score +
         flippedPointsAux (gameLoopStep^[0] (createInitialState 1)).bricks
           (gameLoopStep^[0 + 1] (createInitialState 1)).bricks) :=
  ⟨⟨Reachable.init 1, Nat.zero_le 1⟩,
   claim_C5_score_once (createInitialState 1) (Reachable.init 1) 0 1 (Nat.zero_le 1)⟩

/-- Claim C6: after one simulation tick from any reachable state, at most one
of `gameOver` and `gameWon` holds: destroying the last brick requires the
ball rectangle to overlap a brick (all of which sit above y = 188), while the
loss check requires ball y above 480 on the same tick. -/
theorem claim_C6_not_both (s : GameState) (h : Reachable s) :
    ¬ ((gameLoopStep s).gameOver = true ∧ (gameLoopStep s).gameWon = true) :=
  step_not_both s (reachable_inv s h)

theorem claim_C6_not_both_witness :
    Reachable (createInitialState 1) ∧
    ¬ ((gameLoopStep (createInitialState 1)).gameOver = true ∧
       (gameLoopStep (createInitialState 1)).gameWon = true) :=
  ⟨Reachable.init 1, claim_C6_not_both (createInitialState 1) (Reachable.init 1)⟩

/-- Claim C8: every reachable state has lives in [0, 3], and once `gameOver`
is true every further tick is the identity, so `gameOver` stays true and
lives never change again until a restart builds a fresh state. -/
theorem claim_C8_lives_gameOver (s : GameState) (h : Reachable s) :
    (0 ≤ s.lives ∧ s.lives ≤ 3) ∧
    (s.gameOver = true → ∀ n : ℕ, gameLoopStep^[n] s = s) := by
  have hInv := reachable_inv s h
  refine ⟨⟨hInv.1.1, hInv.1.2.1⟩, ?_⟩
  intro hO n
  exact Function.iterate_fixed (step_fix_of_gameOver s hO) n

theorem claim_C8_lives_gameOver_witness :
    Reachable (createInitialState 1) ∧
    ((0 ≤ (createInitialState 1).lives ∧ (createInitialState 1).lives ≤ 3) ∧
     ((createInitialState 1).gameOver = true →
       ∀ n : ℕ, gameLoopStep^[n] (createInitialState 1) = createInitialState 1)) :=
  ⟨Reachable.init 1, claim_C8_lives_gameOver (createInitialState 1) (Reachable.init 1)⟩

/-- Claim C10: `checkCollision` returns true exactly when all four strict
half-plane inequalities hold; in particular rectangles that merely touch at
an edge (equality in any of the four tests) are reported as not colliding. -/
theorem claim_C10_checkCollision (a b : Rect) :
    (checkCollision a b ↔
      (a.x < b.x + b.width ∧ a.x + a.width > b.x ∧
       a.y < b.y + b.height ∧ a.y + a.height > b.y)) ∧
    ((a.x + a.width = b.x ∨ b.x + b.width = a.x ∨
      a.y + a.height = b.y ∨ b.y + b.height = a.y) → ¬ checkCollision a b) := by
  constructor
  · exact Iff.rfl
  · rintro (he | he | he | he) ⟨h1, h2, h3, h4⟩
    · rw [he] at h2
      exact lt_irrefl _ h2
    · rw [he] at h1
      exact lt_irrefl _ h1
    · rw [he] at h4
      exact lt_irrefl _ h4
    · rw [he] at h3
      exact lt_irrefl _ h3

theorem claim_C10_checkCollision_witness :
    (((⟨0, 0, 1, 1⟩ : Rect).x + (⟨0, 0, 1, 1⟩ : Rect).width = (⟨1, 0, 1, 1⟩ : Rect).x ∨
      (⟨1, 0, 1, 1⟩ : Rect).x + (⟨1, 0, 1, 1⟩ : Rect).width = (⟨0, 0, 1, 1⟩ : Rect).x ∨
      (⟨0, 0, 1, 1⟩ : Rect).y + (⟨0, 0, 1, 1⟩ : Rect).height = (⟨1, 0, 1, 1⟩ : Rect).y ∨
      (⟨1, 0, 1, 1⟩ : Rect).y + (⟨1, 0, 1, 1⟩ : Rect).height = (⟨0, 0, 1, 1⟩ : Rect).y) ∧
     ¬ checkCollision ⟨0, 0, 1, 1⟩ ⟨1, 0, 1, 1⟩) :=
  ⟨Or.inl (by norm_num),
   (claim_C10_checkCollision ⟨0, 0, 1, 1⟩ ⟨1, 0, 1, 1⟩).2 (Or.inl (by norm_num))⟩

theorem paddleBounce_not_hit (s : GameState) (h : ¬ paddleHit s) : paddleBounce s = s := by
  unfold paddleBounce
  rw [if_neg h]

/-- Claim C9: the brick scan visits every brick with no early exit — on an
active tick, brick `i` of the output is precisely the `markBrick` image of
brick `i` of the input (destroyed exactly when it was destroyed before or its
rectangle overlaps the ball rectangle), and the score grows by the summed
point values of all newly destroyed bricks, one contribution per overlapping
brick. -/
theorem claim_C9_full_scan (s : GameState) (hA : Active s) :
    (gameLoopStep s).bricks = s.bricks.map (markBrick (wallBounce (moveBall s)).ball) ∧
    (∀ i : ℕ, ∀ hi : i < s.bricks.length, ∀ hi2 : i < (gameLoopStep s).bricks.length,
      (((gameLoopStep s).bricks[i]).destroyed = true ↔
        ((s.bricks[i]).destroyed = true ∨
          checkCollision (ballRect (wallBounce (moveBall s)).ball)
            (brickRect (s.bricks[i]))))) ∧
    (gameLoopStep s).score =
      s.score + newlyDestroyedPoints ((wallBounce (moveBall s)).ball) s.bricks := by
  refine ⟨step_bricks_active s hA, ?_, step_score_active s hA⟩
  intro i hi hi2
  have hg : (gameLoopStep s).bricks[i] =
      markBrick ((wallBounce (moveBall s)).ball) (s.bricks[i]) := by
    simp [step_bricks_active s hA]
  rw [hg]
  exact markBrick_destroyed_iff _ _

theorem sTwoBricks_wall : wallBounce (moveBall sTwoBricks) = moveBall sTwoBricks := by
  unfold wallBounce wallBounceX wallBounceY moveBall sTwoBricks
  norm_num [BALL_SIZE, GAME_WIDTH]

theorem sTwoBricks_ball : (wallBounce (moveBall sTwoBricks)).ball = ⟨40.5, 59⟩ := by
  rw [sTwoBricks_wall]
  unfold moveBall sTwoBricks
  norm_num

theorem sTwoBricks_nohit : ¬ paddleHit (wallBounce (moveBall sTwoBricks)) := by
  rw [sTwoBricks_wall]
  unfold paddleHit checkCollision ballRect paddleRect moveBall sTwoBricks
  norm_num [BALL_SIZE, PADDLE_WIDTH, PADDLE_HEIGHT]

theorem twoBricks_condA :
    (⟨"0-0", 11, 50, false, "c", 50⟩ : Brick).destroyed = false ∧
    checkCollision (ballRect ⟨40.5, 59⟩) (brickRect ⟨"0-0", 11, 50, false, "c", 50⟩) := by
  refine ⟨rfl, ?_⟩
  unfold checkCollision ballRect brickRect
  norm_num [BALL_SIZE, BRICK_WIDTH, BRICK_HEIGHT]

theorem twoBricks_condB :
    (⟨"0-1", 41, 50, false, "c", 40⟩ : Brick).destroyed = false ∧
    checkCollision (ballRect ⟨40.5, 59⟩) (brickRect ⟨"0-1", 41, 50, false, "c", 40⟩) := by
  refine ⟨rfl, ?_⟩
  unfold checkCollision ballRect brickRect
  norm_num [BALL_SIZE, BRICK_WIDTH, BRICK_HEIGHT]

theorem twoBricks_velA :
    brickBounceVel ⟨40.5, 59⟩ ⟨"0-0", 11, 50, false, "c", 50⟩ ⟨2, 1⟩ = ⟨-2, 1⟩ := by
  unfold brickBounceVel
  norm_num [BRICK_WIDTH, BRICK_HEIGHT]

theorem twoBricks_velB :
    brickBounceVel ⟨40.5, 59⟩ ⟨"0-1", 41, 50, false, "c", 40⟩ ⟨-2, 1⟩ = ⟨2, 1⟩ := by
  unfold brickBounceVel
  rw [if_pos]
  · norm_num
  · dsimp only
    rw [show (40.5 : ℝ) - (41 + BRICK_WIDTH / 2) = -14.5 by norm_num [BRICK_WIDTH],
        show (59 : ℝ) - (50 + BRICK_HEIGHT / 2) = 0 by norm_num [BRICK_HEIGHT], abs_zero,
        abs_of_neg (by norm_num : (-14.5 : ℝ) < 0)]
    norm_num

theorem twoBricks_pass :
    brickPass ⟨40.5, 59⟩
      [⟨"0-0", 11, 50, false, "c", 50⟩, ⟨"0-1", 41, 50, false, "c", 40⟩] 0 ⟨2, 1⟩ =
    ([⟨"0-0", 11, 50, true, "c", 50⟩, ⟨"0-1", 41, 50, true, "c", 40⟩], 90, ⟨2, 1⟩) := by
  unfold brickPass
  rw [if_pos twoBricks_condA]
  dsimp only
  rw [twoBricks_velA]
  unfold brickPass
  rw [if_pos twoBricks_condB]
  dsimp only
  rw [twoBricks_velB]
  unfold brickPass
  norm_num

theorem claim_C9_full_scan_witness :
    Active sTwoBricks ∧
    (gameLoopStep sTwoBricks).bricks =
      [⟨"0-0", 11, 50, true, "c", 50⟩, ⟨"0-1", 41, 50, true, "c", 40⟩] ∧
    (gameLoopStep sTwoBricks).score = sTwoBricks.score + (50 + 40) ∧
    (gameLoopStep sTwoBricks).ballVelocity = sTwoBricks.ballVelocity ∧
    (brickPass ⟨40.5, 59⟩ [⟨"0-0", 11, 50, false, "c", 50⟩] 0 ⟨2, 1⟩).2.2 = ⟨-2, 1⟩ := by
  have hA : Active sTwoBricks := ⟨rfl, rfl, rfl, rfl⟩
  obtain ⟨hbr, -, hsc⟩ := claim_C9_full_scan sTwoBricks hA
  rw [sTwoBricks_ball] at hbr hsc
  have hmA : markBrick ⟨40.5, 59⟩ ⟨"0-0", 11, 50, false, "c", 50⟩ =
      ⟨"0-0", 11, 50, true, "c", 50⟩ := by
    unfold markBrick
    rw [if_pos twoBricks_condA]
  have hmB : markBrick ⟨40.5, 59⟩ ⟨"0-1", 41, 50, false, "c", 40⟩ =
      ⟨"0-1", 41, 50, true, "c", 40⟩ := by
    unfold markBrick
    rw [if_pos twoBricks_condB]
  refine ⟨hA, ?_, ?_, ?_, ?_⟩
  · rw [hbr]
    show ([⟨"0-0", 11, 50, false, "c", 50⟩, ⟨"0-1", 41, 50, false, "c", 40⟩] : List Brick).map
        (markBrick ⟨40.5, 59⟩) = _
    rw [List.map_cons, List.map_cons, List.map_nil, hmA, hmB]
  · rw [hsc]
    have hndp : newlyDestroyedPoints ⟨40.5, 59⟩ sTwoBricks.bricks = 90 := by
      show newlyDestroyedPoints ⟨40.5, 59⟩
        [⟨"0-0", 11, 50, false, "c", 50⟩, ⟨"0-1", 41, 50, false, "c", 40⟩] = 90
      unfold newlyDestroyedPoints
      rw [if_pos twoBricks_condA]
      unfold newlyDestroyedPoints
      rw [if_pos twoBricks_condB]
      norm_num [newlyDestroyedPoints]
    rw [hndp]
    norm_num
  · have hbricks2 : (wallBounce (moveBall sTwoBricks)).bricks =
        [⟨"0-0", 11, 50, false, "c", 50⟩, ⟨"0-1", 41, 50, false, "c", 40⟩] := by
      rw [sTwoBricks_wall]
      rfl
    have hscore2 : (wallBounce (moveBall sTwoBricks)).score = 0 := by
      rw [sTwoBricks_wall]
      rfl
    have hvel2 : (wallBounce (moveBall sTwoBricks)).ballVelocity = ⟨2, 1⟩ := by
      rw [sTwoBricks_wall]
      rfl
    have hv : (gameLoopStep sTwoBricks).ballVelocity = ⟨2, 1⟩ := by
      rw [gameLoopStep_active sTwoBricks hA]
      have hbally :
          (winCheck (brickCollisions (paddleBounce (wallBounce (moveBall sTwoBricks))))).ball.y =
            (59 : ℝ) := by
        simp [sTwoBricks_ball]
      rw [lossCheck_of_no_fall _ (by rw [hbally]; norm_num [GAME_HEIGHT])]
      rw [winCheck_ballVelocity, brickCollisions_vel,
          paddleBounce_not_hit _ sTwoBricks_nohit]
      rw [sTwoBricks_ball, hbricks2, hscore2, hvel2, twoBricks_pass]
    rw [hv]
    rfl
  · unfold brickPass
    rw [if_pos twoBricks_condA]
    dsimp only
    rw [twoBricks_velA]
    unfold brickPass
    rfl
